import Mathlib

/-!
Shallow embedding of the Streamy backend (Django + graphene GraphQL API):
the resolvers of `movies/schema.py` and `users/schema.py` over explicit
list-based stores, together with theorems settling the specification
claims about them.

Conventions of the embedding:
* A Django model row becomes a structure; a table becomes a `List`.
* `info.context.user` becomes a `Requester` value: either the Django
  `AnonymousUser` sentinel or an authenticated `User` record.
* A resolver that can raise becomes a function into `Except Err _`; an
  `Except.error` result carries no store, mirroring that every raise in
  the source happens before any write.
* Django model equality (`movie.posted_by != user`) compares primary
  keys, and compares unequal against `None` and against `AnonymousUser`.
* `Model.objects.get` raises `DoesNotExist` when no row matches and
  `MultipleObjectsReturned` when several do; a loaded model instance is
  always truthy, so `if not movie:` after a successful `get` never fires.
* `AnonymousUser.check_password` raises `NotImplementedError`.
* graphene omits an argument the query did not supply, so a `mutate`
  that binds it as a required positional parameter raises `TypeError`
  when it is absent; optional arguments read via `kwargs.get` become
  `Option` values defaulting to `none`.
* Password hashing is an external collaborator; it is modelled by an
  injective tagging function, which is all the resolvers rely on.
-/

namespace Streamy

/-- Errors a resolver call can surface: handler-raised `GraphQLError`s plus
the library exceptions that escape the handlers unhandled. -/
inductive Err where
  | graphQLError (msg : String)
  | doesNotExist
  | multipleObjectsReturned
  | notImplemented
  | typeError
deriving Repr, DecidableEq

/-- A row of the Django user model (`users` app): name fields, unique
username and email, the stored password hash and the superuser flag. -/
structure User where
  id : Nat
  username : String
  email : String
  first_name : String
  last_name : String
  password_hash : String
  is_superuser : Bool
deriving Repr, DecidableEq

/-- The requester attached to the request context: Django's
`AnonymousUser` sentinel or an authenticated `User` instance. -/
inductive Requester where
  | anonymous
  | auth (u : User)
deriving Repr, DecidableEq

/-- A row of `movies.models.Movie`; `posted_by` is a nullable foreign key
to the user model, held as the referenced primary key. -/
structure Movie where
  id : Nat
  title : String
  description : String
  url : String
  year : Nat
  rating : Nat
  poster : String
  cover : String
  genre : List String
  created_at : Nat
  posted_by : Option Nat
deriving Repr, DecidableEq

/-- A row of `movies.models.Like`: nullable foreign key to the user
model, non-null foreign key to `Movie`. No uniqueness constraint. -/
structure Like where
  id : Nat
  user : Option Nat
  movie : Nat
deriving Repr, DecidableEq

/-- The movies app's tables plus the auto-increment counters the
database keeps for primary keys. -/
structure MovieStore where
  movies : List Movie
  likes : List Like
  nextMovieId : Nat
  nextLikeId : Nat
deriving Repr, DecidableEq

/-- The user table plus its auto-increment primary-key counter. -/
structure UserStore where
  users : List User
  nextUserId : Nat
deriving Repr, DecidableEq

/-- Modelled password hasher (`User.set_password` stores `hash p`); the
resolvers only rely on `check_password` comparing against it. -/
def hashPassword (p : String) : String := "pbkdf2$" ++ p

/-- Containment of `needle` in `hay` as a contiguous character run. -/
def listContainsSub (needle : List Char) : List Char → Bool
  | [] => needle.isEmpty
  | c :: rest => needle.isPrefixOf (c :: rest) || listContainsSub needle rest

/-- Django's `icontains` lookup: case-insensitive substring match,
computed by lowercasing both character sequences. -/
def icontains (hay needle : String) : Bool :=
  listContainsSub (needle.data.map Char.toLower) (hay.data.map Char.toLower)

/-- Django model equality of `movie.posted_by` against the context user:
primary-key equality, never satisfied by `None` or by `AnonymousUser`. -/
def postedByEq (m : Movie) (r : Requester) : Bool :=
  match m.posted_by, r with
  | some pid, .auth u => pid == u.id
  | _, _ => false

/-- Embedding of `Movie.objects.get(id=movie_id)`. -/
def getMovie (movies : List Movie) (movie_id : Nat) : Except Err Movie :=
  match movies.filter (fun m => m.id == movie_id) with
  | [] => .error .doesNotExist
  | [m] => .ok m
  | _ :: _ :: _ => .error .multipleObjectsReturned

/-- Embedding of `Like.objects.get(user=user, movie=movie)`. -/
def getLike (likes : List Like) (uid movie_id : Nat) : Except Err Like :=
  match likes.filter (fun l => l.user == some uid && l.movie == movie_id) with
  | [] => .error .doesNotExist
  | [l] => .ok l
  | _ :: _ :: _ => .error .multipleObjectsReturned

/-- Truthiness of a Django model instance loaded by a successful `get`:
model instances define no `__bool__`, so they are always truthy and the
source's `if not movie:` branch is dead. -/
def pyFalsyInstance (_m : Movie) : Bool := false

/-- Embedding of `Query.resolve_movies` (`movies/schema.py`): with a
truthy `search` string, filter by `Q(title__icontains=search)`; with
`None` or an empty string, return all movies. -/
def resolve_movies (movies : List Movie) (search : Option String) : List Movie :=
  match search with
  | some s =>
      if s.isEmpty then movies
      else movies.filter (fun m => icontains m.title s)
  | none => movies

/-- Embedding of `Query.resolve_likes`. -/
def resolve_likes (st : MovieStore) : List Like := st.likes

/-- Saving a loaded movie instance writes it back over the row with its
primary key. -/
def saveMovie (movies : List Movie) (m : Movie) : List Movie :=
  movies.map (fun x => if x.id == m.id then m else x)

/-- Embedding of `CreateMovie.mutate`: reject anonymous requesters, then
non-superusers; otherwise build the movie with `posted_by = user`, save
it and return it. `now` stands for the `auto_now_add` timestamp the
database assigns to `created_at`. -/
def CreateMovie_mutate (st : MovieStore) (r : Requester)
    (title description url : String) (year rating : Nat)
    (poster cover : String) (genre : List String) (now : Nat) :
    Except Err (MovieStore × Movie) :=
  match r with
  | .anonymous => .error (.graphQLError "You must be logged in to add movies")
  | .auth u =>
      if u.is_superuser == false then
        .error (.graphQLError "Only admin users can add movies")
      else
        let movie : Movie :=
          { id := st.nextMovieId, title := title, description := description,
            url := url, year := year, rating := rating, poster := poster,
            cover := cover, genre := genre, created_at := now,
            posted_by := some u.id }
        .ok ({ st with
                movies := st.movies ++ [movie],
                nextMovieId := st.nextMovieId + 1 }, movie)

/-- The optional-argument dictionary of `UpdateMovie.mutate`: a field the
query did not supply is read by `kwargs.get` as `None`. -/
structure UpdateMovieArgs where
  movie_id : Nat
  title : Option String
  description : Option String
  url : Option String
  year : Option Nat
  rating : Option Nat
  poster : Option String
  cover : Option String
  genre : Option (List String)
deriving Repr, DecidableEq

/-- Python `kwargs.get(k) or old` for a string field: `None` and the
empty string are falsy and keep the old value. -/
def pyOrStr (v : Option String) (old : String) : String :=
  match v with
  | some s => if s.isEmpty then old else s
  | none => old

/-- Python `kwargs.get(k) or old` for an integer field: `None` and `0`
are falsy and keep the old value. -/
def pyOrNat (v : Option Nat) (old : Nat) : Nat :=
  match v with
  | some n => if n == 0 then old else n
  | none => old

/-- Python `kwargs.get(k) or old` for a list field: `None` and the empty
list are falsy and keep the old value. -/
def pyOrList (v : Option (List String)) (old : List String) : List String :=
  match v with
  | some l => if l.isEmpty then old else l
  | none => old

/-- The field rewrite block of `UpdateMovie.mutate`: each optional field
overwrites only when truthy. -/
def applyMovieUpdate (m : Movie) (a : UpdateMovieArgs) : Movie :=
  { m with
    title := pyOrStr a.title m.title,
    description := pyOrStr a.description m.description,
    url := pyOrStr a.url m.url,
    year := pyOrNat a.year m.year,
    rating := pyOrNat a.rating m.rating,
    poster := pyOrStr a.poster m.poster,
    cover := pyOrStr a.cover m.cover,
    genre := pyOrList a.genre m.genre }

/-- Embedding of `UpdateMovie.mutate`: load the movie (raising
`DoesNotExist` when absent), reject a requester other than `posted_by`,
apply the truthy-overwrite block, save and return. -/
def UpdateMovie_mutate (st : MovieStore) (r : Requester)
    (a : UpdateMovieArgs) : Except Err (MovieStore × Movie) := do
  let movie ← getMovie st.movies a.movie_id
  if postedByEq movie r = false then
    throw (.graphQLError "Not permitted to update movies")
  else
    let movie' := applyMovieUpdate movie a
    return ({ st with movies := saveMovie st.movies movie' }, movie')

/-- Embedding of `DeleteMovie.mutate`: load the movie, reject a
requester other than `posted_by`, delete the row (the `Like.movie`
foreign key cascades) and return the id. -/
def DeleteMovie_mutate (st : MovieStore) (r : Requester) (movie_id : Nat) :
    Except Err (MovieStore × Nat) := do
  let movie ← getMovie st.movies movie_id
  if postedByEq movie r = false then
    throw (.graphQLError "Not permitted to delete movies")
  else
    return ({ st with
              movies := st.movies.filter (fun m => !(m.id == movie.id)),
              likes := st.likes.filter (fun l => !(l.movie == movie.id)) },
            movie_id)

/-- Embedding of `CreateLike.mutate`: reject anonymous requesters, load
the movie (`DoesNotExist` when absent; the falsy re-check is dead code),
then unconditionally insert a new `Like` row for (user, movie). -/
def CreateLike_mutate (st : MovieStore) (r : Requester) (movie_id : Nat) :
    Except Err (MovieStore × Nat × Movie) :=
  match r with
  | .anonymous => .error (.graphQLError "You must be logged in to like movies")
  | .auth u => do
      let movie ← getMovie st.movies movie_id
      if pyFalsyInstance movie then
        throw (.graphQLError "Cannot find movie with the given movie id")
      else
        let like : Like := { id := st.nextLikeId, user := some u.id, movie := movie.id }
        return ({ st with
                   likes := st.likes ++ [like],
                   nextLikeId := st.nextLikeId + 1 }, u.id, movie)

/-- Embedding of `UpdateLike.mutate` (remove-like): reject anonymous
requesters, load the movie, load THE like for (user, movie) — raising
`DoesNotExist` when none and `MultipleObjectsReturned` when several —
delete that row and return (user, movie). -/
def UpdateLike_mutate (st : MovieStore) (r : Requester) (movie_id : Nat) :
    Except Err (MovieStore × Nat × Movie) :=
  match r with
  | .anonymous => .error (.graphQLError "You must be logged in to update likes")
  | .auth u => do
      let movie ← getMovie st.movies movie_id
      if pyFalsyInstance movie then
        throw (.graphQLError "Cannot find movie with the given movie id")
      else
        let like ← getLike st.likes u.id movie.id
        return ({ st with likes := st.likes.filter (fun l => !(l.id == like.id)) },
                u.id, movie)

/-- Saving a loaded user instance writes it back over the row with its
primary key. -/
def saveUser (users : List User) (u : User) : List User :=
  users.map (fun x => if x.id == u.id then u else x)

/-- The row `Register.mutate` saves on success: the unsaved instance
built from the form fields, with the hash `set_password` left behind
(`set_password(password)` then `set_password(password2)`, the later
call winning). -/
def registerRow (st : UserStore)
    (first_name last_name username email password2 : String) : User :=
  { id := st.nextUserId, username := username, email := email,
    first_name := first_name, last_name := last_name,
    password_hash := hashPassword password2, is_superuser := false }

/-- Embedding of `Register.mutate` (`users/schema.py`): build the
unsaved instance, then in order check email uniqueness, username
uniqueness and password confirmation, each raising a `GraphQLError`;
on success hash the password and save the row. -/
def Register_mutate (st : UserStore)
    (first_name last_name username email password password2 : String) :
    Except Err (UserStore × User) :=
  if (st.users.filter (fun u => u.email == email)).isEmpty = false then
    .error (.graphQLError "Email is already in use!")
  else if (st.users.filter (fun u => u.username == username)).isEmpty = false then
    .error (.graphQLError "Username is already in use!")
  else if password ≠ password2 then
    .error (.graphQLError "Password mismatch! Please check again")
  else
    let user := registerRow st first_name last_name username email password2
    .ok ({ users := st.users ++ [user], nextUserId := st.nextUserId + 1 }, user)

/-- The name-overwrite block of `UpdateAccount.mutate`: each field is
overwritten only when the supplied string is non-empty. -/
def applyNameUpdate (u : User) (fn ln : String) : User :=
  let u1 := if fn ≠ "" then { u with first_name := fn } else u
  if ln ≠ "" then { u1 with last_name := ln } else u1

/-- Embedding of `UpdateAccount.mutate`. Its `Arguments` declare
`first_name` and `last_name` optional, but `mutate` binds both as
required positional parameters; graphene omits an unsupplied argument,
so an absent field raises `TypeError` before the handler body runs.
With both supplied: reject anonymous requesters, overwrite each
non-empty field on the requester's record, save and return it. -/
def UpdateAccount_mutate (st : UserStore) (r : Requester)
    (first_name last_name : Option String) : Except Err (UserStore × User) :=
  match first_name, last_name with
  | some fn, some ln =>
      match r with
      | .anonymous => .error (.graphQLError "Please login to update account!")
      | .auth u =>
          let u2 := applyNameUpdate u fn ln
          .ok ({ st with users := saveUser st.users u2 }, u2)
  | _, _ => .error .typeError

/-- Embedding of `User.check_password` on the context user: hash
comparison for an authenticated user; Django's
`AnonymousUser.check_password` raises `NotImplementedError`. -/
def check_password (r : Requester) (password : String) : Except Err Bool :=
  match r with
  | .anonymous => .error .notImplemented
  | .auth u => .ok (u.password_hash == hashPassword password)

/-- Cascade of `user.delete()` into the movies app: rows whose `posted_by`
or `user` foreign key references the deleted user go away, and likes of
the cascaded movies go with them. -/
def cascadeUserDelete (mst : MovieStore) (uid : Nat) : MovieStore :=
  let deadMovies := (mst.movies.filter (fun m => m.posted_by == some uid)).map (fun m => m.id)
  { mst with
    movies := mst.movies.filter (fun m => !(m.posted_by == some uid)),
    likes := mst.likes.filter
      (fun l => !(l.user == some uid) && !(deadMovies.contains l.movie)) }

/-- Embedding of `DeleteAccount.mutate`. There is no anonymity guard:
the handler goes straight to `check_password` (which raises
`NotImplementedError` on the anonymous sentinel), raises a
`GraphQLError` on mismatch, and otherwise deletes the requester's row
(cascading) and returns the deleted snapshot. -/
def DeleteAccount_mutate (ust : UserStore) (mst : MovieStore)
    (r : Requester) (password : String) :
    Except Err (UserStore × MovieStore × User) := do
  let ok ← check_password r password
  if ok = false then
    throw (.graphQLError "Please specify correct password to delete account")
  else
    match r with
    | .anonymous => throw .notImplemented
    | .auth u =>
        return ({ ust with users := ust.users.filter (fun x => !(x.id == u.id)) },
                cascadeUserDelete mst u.id, u)

/-- An `UpdateMovie` argument dictionary whose every supplied value is
falsy but valid: rating 0 and an empty genre list, the rest absent. -/
def falsyUpdateArgs (movie_id : Nat) : UpdateMovieArgs :=
  { movie_id := movie_id, title := none, description := none, url := none,
    year := none, rating := some 0, poster := none, cover := none,
    genre := some [] }

/-! Concrete fixtures used by the witness and counterexample theorems. -/

/-- Fixture: a superuser who posted the fixture movies. -/
def alice : User :=
  { id := 1, username := "alice", email := "alice@x.com", first_name := "A",
    last_name := "Anderson", password_hash := hashPassword "wonder",
    is_superuser := true }

/-- Fixture: an ordinary (non-superuser) authenticated user. -/
def bob : User :=
  { id := 2, username := "bob", email := "bob@x.com", first_name := "B",
    last_name := "Burton", password_hash := hashPassword "builder",
    is_superuser := false }

/-- Fixture: a movie whose description — but not title — contains the
search string "batman". -/
def inception : Movie :=
  { id := 1, title := "Inception", description := "dreams with a Batman cameo",
    url := "http://m/1", year := 2010, rating := 5, poster := "p1",
    cover := "c1", genre := ["scifi"], created_at := 11, posted_by := some 1 }

/-- Fixture: a second movie posted by the same superuser. -/
def darkKnight : Movie :=
  { id := 2, title := "The Dark Knight", description := "gotham",
    url := "http://m/2", year := 2008, rating := 5, poster := "p2",
    cover := "c2", genre := ["action"], created_at := 12, posted_by := some 1 }

/-- Fixture user table holding the two users. -/
def exampleUsers : UserStore := { users := [alice, bob], nextUserId := 3 }

/-- Fixture movies app state: two movies, one like by bob on movie 2. -/
def exampleMovies : MovieStore :=
  { movies := [inception, darkKnight],
    likes := [{ id := 1, user := some 2, movie := 2 }],
    nextMovieId := 3, nextLikeId := 2 }

/-- Fixture state with two duplicate likes by bob on movie 1. -/
def dupLikeMovies : MovieStore :=
  { movies := [inception, darkKnight],
    likes := [{ id := 1, user := some 2, movie := 1 },
              { id := 2, user := some 2, movie := 1 }],
    nextMovieId := 3, nextLikeId := 3 }

/-- Fixture argument dictionary: an update supplying only a new title. -/
def titleUpdateArgs (movie_id : Nat) (t : String) : UpdateMovieArgs :=
  { movie_id := movie_id, title := some t, description := none, url := none,
    year := none, rating := none, poster := none, cover := none,
    genre := none }

/-! Shared lemmas about the store primitives. -/

/-- A successful `Movie.objects.get` means the row set filtered by the
primary key is exactly the returned row. -/
theorem getMovie_ok_filter {movies : List Movie} {movie_id : Nat} {m : Movie}
    (h : getMovie movies movie_id = .ok m) :
    movies.filter (fun x => x.id == movie_id) = [m] := by
  unfold getMovie at h
  split at h
  · exact absurd h (by simp)
  · next hf => rw [hf]; injection h with h; rw [h]
  · exact absurd h (by simp)

/-- A row returned by `Movie.objects.get(id=movie_id)` carries that
primary key. -/
theorem getMovie_ok_id {movies : List Movie} {movie_id : Nat} {m : Movie}
    (h : getMovie movies movie_id = .ok m) : m.id = movie_id := by
  have hm : m ∈ movies.filter (fun x => x.id == movie_id) := by
    rw [getMovie_ok_filter h]; exact List.mem_singleton_self m
  simpa using List.of_mem_filter hm

/-- Saving back an unmodified loaded row leaves the table unchanged. -/
theorem saveMovie_of_get {movies : List Movie} {movie_id : Nat} {m : Movie}
    (h : getMovie movies movie_id = .ok m) : saveMovie movies m = movies := by
  have hid : m.id = movie_id := getMovie_ok_id h
  have hf : movies.filter (fun x => x.id == movie_id) = [m] := getMovie_ok_filter h
  unfold saveMovie
  have : movies.map (fun x => if x.id == m.id then m else x) = movies.map id := by
    apply List.map_congr_left
    intro x hx
    by_cases hp : (x.id == m.id) = true
    · have hxm : x ∈ movies.filter (fun y => y.id == movie_id) :=
        List.mem_filter.mpr ⟨hx, by rw [← hid]; exact hp⟩
      rw [hf] at hxm
      have hxm : x = m := by simpa using hxm
      simp [hp, hxm]
    · simp [hp]
  rw [this, List.map_id]

/-! Claim C1. -/

/-- C1 counterexample: the movies query does not search descriptions.
The fixture movie's description contains "batman" case-insensitively,
so the claim requires the search to return it, yet `resolve_movies`
(which filters only on `title__icontains`) returns the empty list. -/
theorem C1_counterexample :
    icontains inception.description "batman" = true ∧
    icontains inception.title "batman" = false ∧
    resolve_movies [inception] (some "batman") = [] := by
  refine ⟨by decide, by decide, by decide⟩

/-- C1 (amended): with a non-empty search string the movies query
returns exactly the movies whose TITLE contains the string
case-insensitively (descriptions are not searched); with no search
argument it returns all movies; and a search matching no title returns
the empty list rather than an error. -/
theorem C1_movies_query (movies : List Movie) (s : String)
    (h : s.isEmpty = false) :
    resolve_movies movies (some s) =
      movies.filter (fun m => icontains m.title s) ∧
    (∀ m : Movie, m ∈ resolve_movies movies (some s) ↔
      m ∈ movies ∧ icontains m.title s = true) ∧
    resolve_movies movies none = movies ∧
    ((∀ m ∈ movies, icontains m.title s = false) →
      resolve_movies movies (some s) = []) := by
  refine ⟨by simp [resolve_movies, h], ?_, rfl, ?_⟩
  · intro m
    simp [resolve_movies, h, List.mem_filter]
  · intro hall
    simp only [resolve_movies, h, if_false, Bool.false_eq_true]
    rw [List.filter_eq_nil_iff]
    intro a ha
    simp [hall a ha]

/-- Witness for C1: the amended statement evaluated on the two-movie
fixture store with the search string "batman". -/
theorem C1_movies_query_witness :
    ("batman" : String).isEmpty = false ∧
    (resolve_movies [inception, darkKnight] (some "batman") =
      [inception, darkKnight].filter (fun m => icontains m.title "batman") ∧
    (∀ m : Movie, m ∈ resolve_movies [inception, darkKnight] (some "batman") ↔
      m ∈ [inception, darkKnight] ∧ icontains m.title "batman" = true) ∧
    resolve_movies [inception, darkKnight] none = [inception, darkKnight] ∧
    ((∀ m ∈ [inception, darkKnight], icontains m.title "batman" = false) →
      resolve_movies [inception, darkKnight] (some "batman") = [])) :=
  ⟨by decide, C1_movies_query [inception, darkKnight] "batman" (by decide)⟩

/-! Claim C2. -/

/-- C2 counterexample: `DeleteAccount.mutate` has no anonymity guard.
For an Anonymous requester the call is refused only because the very
credential check the claim says is never reached raises
`NotImplementedError` (Django's `AnonymousUser.check_password`): the
failure surfacing from `delete_account` is exactly the credential
check's error, not a denial issued before it for want of an
authenticated identity. -/
theorem C2_counterexample :
    DeleteAccount_mutate exampleUsers exampleMovies .anonymous "pw" =
      .error .notImplemented ∧
    check_password .anonymous "pw" = .error .notImplemented := ⟨rfl, rfl⟩

/-- C2 (amended): `delete_account` refuses an Anonymous requester, but
only by the `NotImplementedError` its credential check raises — there
is no prior anonymity denial — and in that case no store is mutated; an
authenticated requester whose password does not verify fails with the
wrong-password error; an authenticated requester whose password does
verify has their own User row deleted (cascading into the movies app)
and returned. -/
theorem C2_delete_account (ust : UserStore) (mst : MovieStore) (u : User)
    (pw : String) :
    DeleteAccount_mutate ust mst .anonymous pw = .error .notImplemented ∧
    (u.password_hash ≠ hashPassword pw →
      DeleteAccount_mutate ust mst (.auth u) pw =
        .error (.graphQLError "Please specify correct password to delete account")) ∧
    (u.password_hash = hashPassword pw →
      DeleteAccount_mutate ust mst (.auth u) pw =
        .ok ({ ust with users := ust.users.filter (fun x => !(x.id == u.id)) },
             cascadeUserDelete mst u.id, u)) := by
  refine ⟨rfl, ?_, ?_⟩
  · intro hne
    have hb : (u.password_hash == hashPassword pw) = false :=
      beq_eq_false_iff_ne.mpr hne
    simp [DeleteAccount_mutate, check_password, Bind.bind, Except.bind, hb,
          throw, throwThe, MonadExceptOf.throw]
  · intro heq
    have hb : (u.password_hash == hashPassword pw) = true := beq_iff_eq.mpr heq
    simp [DeleteAccount_mutate, check_password, Bind.bind, Except.bind, hb,
          pure, Except.pure]

/-- Witness for C2: the amended statement evaluated on the fixture
stores for the superuser and her correct password. -/
theorem C2_delete_account_witness :
    DeleteAccount_mutate exampleUsers exampleMovies .anonymous "wonder" =
      .error .notImplemented ∧
    (alice.password_hash ≠ hashPassword "wonder" →
      DeleteAccount_mutate exampleUsers exampleMovies (.auth alice) "wonder" =
        .error (.graphQLError "Please specify correct password to delete account")) ∧
    (alice.password_hash = hashPassword "wonder" →
      DeleteAccount_mutate exampleUsers exampleMovies (.auth alice) "wonder" =
        .ok ({ exampleUsers with
                users := exampleUsers.users.filter (fun x => !(x.id == alice.id)) },
             cascadeUserDelete exampleMovies alice.id, alice)) :=
  C2_delete_account exampleUsers exampleMovies alice "wonder"

/-! Claim C3. -/

/-- C3: ownership guards movie mutation. For a stored movie loaded by
id, any requester failing the `posted_by` comparison — the Anonymous
sentinel always fails it — gets the permission `GraphQLError` from both
`update_movie` and `delete_movie`, and the error result carries no
store, so the movie is untouched; the requester matching `posted_by`
gets the successful update and the successful delete. -/
theorem C3_movie_mutation_ownership (st : MovieStore) (a : UpdateMovieArgs)
    (m : Movie) (r : Requester)
    (hm : getMovie st.movies a.movie_id = .ok m) :
    postedByEq m .anonymous = false ∧
    (postedByEq m r = false →
      UpdateMovie_mutate st r a =
        .error (.graphQLError "Not permitted to update movies") ∧
      DeleteMovie_mutate st r a.movie_id =
        .error (.graphQLError "Not permitted to delete movies")) ∧
    (postedByEq m r = true →
      UpdateMovie_mutate st r a =
        .ok ({ st with movies := saveMovie st.movies (applyMovieUpdate m a) },
             applyMovieUpdate m a) ∧
      DeleteMovie_mutate st r a.movie_id =
        .ok ({ st with
                movies := st.movies.filter (fun x => !(x.id == m.id)),
                likes := st.likes.filter (fun l => !(l.movie == m.id)) },
             a.movie_id)) := by
  refine ⟨by rcases hpb : m.posted_by with _ | pid <;> simp [postedByEq, hpb], ?_, ?_⟩
  · intro hne
    constructor
    · simp [UpdateMovie_mutate, hm, Bind.bind, Except.bind, hne,
            throw, throwThe, MonadExceptOf.throw]
    · simp [DeleteMovie_mutate, hm, Bind.bind, Except.bind, hne,
            throw, throwThe, MonadExceptOf.throw]
  · intro hyes
    constructor
    · simp [UpdateMovie_mutate, hm, Bind.bind, Except.bind, hyes,
            pure, Except.pure]
    · simp [DeleteMovie_mutate, hm, Bind.bind, Except.bind, hyes,
            pure, Except.pure]

/-- Witness for C3: the fixture store, a title-only update of movie 1
(posted by user 1), and the non-owner requester bob. -/
theorem C3_movie_mutation_ownership_witness :
    getMovie exampleMovies.movies (titleUpdateArgs 1 "Tenet").movie_id =
      .ok inception ∧
    (postedByEq inception .anonymous = false ∧
    (postedByEq inception (.auth bob) = false →
      UpdateMovie_mutate exampleMovies (.auth bob) (titleUpdateArgs 1 "Tenet") =
        .error (.graphQLError "Not permitted to update movies") ∧
      DeleteMovie_mutate exampleMovies (.auth bob) (titleUpdateArgs 1 "Tenet").movie_id =
        .error (.graphQLError "Not permitted to delete movies")) ∧
    (postedByEq inception (.auth bob) = true →
      UpdateMovie_mutate exampleMovies (.auth bob) (titleUpdateArgs 1 "Tenet") =
        .ok ({ exampleMovies with
                movies := saveMovie exampleMovies.movies
                  (applyMovieUpdate inception (titleUpdateArgs 1 "Tenet")) },
             applyMovieUpdate inception (titleUpdateArgs 1 "Tenet")) ∧
      DeleteMovie_mutate exampleMovies (.auth bob) (titleUpdateArgs 1 "Tenet").movie_id =
        .ok ({ exampleMovies with
                movies := exampleMovies.movies.filter (fun x => !(x.id == inception.id)),
                likes := exampleMovies.likes.filter (fun l => !(l.movie == inception.id)) },
             (titleUpdateArgs 1 "Tenet").movie_id))) :=
  ⟨rfl, C3_movie_mutation_ownership exampleMovies (titleUpdateArgs 1 "Tenet")
    inception (.auth bob) rfl⟩

/-! Claim C4. -/

/-- C4: `register` fails with the email-conflict error when a stored
user already has the supplied email, with the username-conflict error
when the email is free but the username is taken, and with the
password-mismatch error when both are free but the confirmation
differs; each failure is an error result carrying no store, so no User
row is persisted. When every check passes it appends exactly one new
row, returned with the supplied username and a credential hash that
`check_password` verifies against the supplied password. -/
theorem C4_register (st : UserStore) (fn ln un em pw pw2 : String) :
    ((st.users.filter (fun u => u.email == em)).isEmpty = false →
      Register_mutate st fn ln un em pw pw2 =
        .error (.graphQLError "Email is already in use!")) ∧
    ((st.users.filter (fun u => u.email == em)).isEmpty = true →
     (st.users.filter (fun u => u.username == un)).isEmpty = false →
      Register_mutate st fn ln un em pw pw2 =
        .error (.graphQLError "Username is already in use!")) ∧
    ((st.users.filter (fun u => u.email == em)).isEmpty = true →
     (st.users.filter (fun u => u.username == un)).isEmpty = true →
     pw ≠ pw2 →
      Register_mutate st fn ln un em pw pw2 =
        .error (.graphQLError "Password mismatch! Please check again")) ∧
    ((st.users.filter (fun u => u.email == em)).isEmpty = true →
     (st.users.filter (fun u => u.username == un)).isEmpty = true →
     pw = pw2 →
      Register_mutate st fn ln un em pw pw2 =
        .ok ({ users := st.users ++ [registerRow st fn ln un em pw2],
               nextUserId := st.nextUserId + 1 },
             registerRow st fn ln un em pw2) ∧
      (registerRow st fn ln un em pw2).username = un ∧
      (registerRow st fn ln un em pw2).password_hash = hashPassword pw ∧
      check_password (.auth (registerRow st fn ln un em pw2)) pw = .ok true) := by
  refine ⟨?_, ?_, ?_, ?_⟩
  · intro he
    simp [Register_mutate, he]
  · intro he hu
    simp [Register_mutate, he, hu]
  · intro he hu hne
    simp [Register_mutate, he, hu, hne]
  · intro he hu heq
    subst heq
    simp [Register_mutate, he, hu, registerRow, check_password]

/-- Witness for C4: registration of a fresh user on the fixture user
table. -/
theorem C4_register_witness :
    ((exampleUsers.users.filter (fun u => u.email == "carol@x.com")).isEmpty = false →
      Register_mutate exampleUsers "C" "Carson" "carol" "carol@x.com" "pw" "pw" =
        .error (.graphQLError "Email is already in use!")) ∧
    ((exampleUsers.users.filter (fun u => u.email == "carol@x.com")).isEmpty = true →
     (exampleUsers.users.filter (fun u => u.username == "carol")).isEmpty = false →
      Register_mutate exampleUsers "C" "Carson" "carol" "carol@x.com" "pw" "pw" =
        .error (.graphQLError "Username is already in use!")) ∧
    ((exampleUsers.users.filter (fun u => u.email == "carol@x.com")).isEmpty = true →
     (exampleUsers.users.filter (fun u => u.username == "carol")).isEmpty = true →
     ("pw" : String) ≠ "pw" →
      Register_mutate exampleUsers "C" "Carson" "carol" "carol@x.com" "pw" "pw" =
        .error (.graphQLError "Password mismatch! Please check again")) ∧
    ((exampleUsers.users.filter (fun u => u.email == "carol@x.com")).isEmpty = true →
     (exampleUsers.users.filter (fun u => u.username == "carol")).isEmpty = true →
     ("pw" : String) = "pw" →
      Register_mutate exampleUsers "C" "Carson" "carol" "carol@x.com" "pw" "pw" =
        .ok ({ users := exampleUsers.users ++
                 [registerRow exampleUsers "C" "Carson" "carol" "carol@x.com" "pw"],
               nextUserId := exampleUsers.nextUserId + 1 },
             registerRow exampleUsers "C" "Carson" "carol" "carol@x.com" "pw") ∧
      (registerRow exampleUsers "C" "Carson" "carol" "carol@x.com" "pw").username = "carol" ∧
      (registerRow exampleUsers "C" "Carson" "carol" "carol@x.com" "pw").password_hash =
        hashPassword "pw" ∧
      check_password
        (.auth (registerRow exampleUsers "C" "Carson" "carol" "carol@x.com" "pw")) "pw" =
        .ok true) :=
  C4_register exampleUsers "C" "Carson" "carol" "carol@x.com" "pw" "pw"

/-! Claim C5. -/

/-- C5: the falsy-value quirk. An owner's `update_movie` supplying only
falsy-but-valid values (rating 0, empty genre list) returns the movie
with every field — rating included — still at its old value and the
store exactly as it was, and running the same update a second time from
the resulting state yields that identical state again. -/
theorem C5_falsy_update_idempotent (st : MovieStore) (u : User)
    (movie_id : Nat) (m : Movie)
    (hm : getMovie st.movies movie_id = .ok m)
    (hown : postedByEq m (.auth u) = true) :
    UpdateMovie_mutate st (.auth u) (falsyUpdateArgs movie_id) = .ok (st, m) ∧
    (UpdateMovie_mutate st (.auth u) (falsyUpdateArgs movie_id)).bind
      (fun p => UpdateMovie_mutate p.1 (.auth u) (falsyUpdateArgs movie_id)) =
      .ok (st, m) := by
  have happ : applyMovieUpdate m (falsyUpdateArgs movie_id) = m := rfl
  have hsave : saveMovie st.movies m = st.movies := saveMovie_of_get hm
  have hmid : (falsyUpdateArgs movie_id).movie_id = movie_id := rfl
  have h1 : UpdateMovie_mutate st (.auth u) (falsyUpdateArgs movie_id) = .ok (st, m) := by
    simp [UpdateMovie_mutate, hmid, hm, Bind.bind, Except.bind,
          hown, pure, Except.pure, happ, hsave]
  exact ⟨h1, by rw [h1]; exact h1⟩

/-- Witness for C5: the owner applies the all-falsy update to the
fixture movie whose rating is 5; the state comes back identical. -/
theorem C5_falsy_update_idempotent_witness :
    getMovie exampleMovies.movies 1 = .ok inception ∧
    postedByEq inception (.auth alice) = true ∧
    inception.rating = 5 ∧
    (UpdateMovie_mutate exampleMovies (.auth alice) (falsyUpdateArgs 1) =
      .ok (exampleMovies, inception) ∧
    (UpdateMovie_mutate exampleMovies (.auth alice) (falsyUpdateArgs 1)).bind
      (fun p => UpdateMovie_mutate p.1 (.auth alice) (falsyUpdateArgs 1)) =
      .ok (exampleMovies, inception)) :=
  ⟨rfl, rfl, rfl,
   C5_falsy_update_idempotent exampleMovies alice 1 inception rfl rfl⟩

/-! Claim C6. -/

/-- C6: likes are not unique. For any authenticated requester and any
stored movie, two consecutive `create_like` calls both succeed and the
resulting state holds two NEW distinct Like rows (different primary
keys) for the same (user, movie) pair, so the count of that pair's
likes grows by two. -/
theorem C6_double_like (st : MovieStore) (u : User) (movie_id : Nat)
    (m : Movie) (hm : getMovie st.movies movie_id = .ok m) :
    ∃ st1 st2 : MovieStore,
      CreateLike_mutate st (.auth u) movie_id = .ok (st1, u.id, m) ∧
      CreateLike_mutate st1 (.auth u) movie_id = .ok (st2, u.id, m) ∧
      st2.likes = st.likes ++
        [{ id := st.nextLikeId, user := some u.id, movie := m.id },
         { id := st.nextLikeId + 1, user := some u.id, movie := m.id }] ∧
      st.nextLikeId ≠ st.nextLikeId + 1 ∧
      (st2.likes.filter (fun l => l.user == some u.id && l.movie == m.id)).length =
        (st.likes.filter (fun l => l.user == some u.id && l.movie == m.id)).length + 2 := by
  refine ⟨{ st with
             likes := st.likes ++ [{ id := st.nextLikeId, user := some u.id, movie := m.id }],
             nextLikeId := st.nextLikeId + 1 },
          { st with
             likes := (st.likes ++ [{ id := st.nextLikeId, user := some u.id, movie := m.id }]) ++
               [{ id := st.nextLikeId + 1, user := some u.id, movie := m.id }],
             nextLikeId := st.nextLikeId + 2 },
          ?_, ?_, ?_, ?_, ?_⟩
  · simp [CreateLike_mutate, hm, Bind.bind, Except.bind, pyFalsyInstance,
          pure, Except.pure]
  · simp [CreateLike_mutate, hm, Bind.bind, Except.bind, pyFalsyInstance,
          pure, Except.pure]
  · simp
  · omega
  · simp [List.filter_append, List.filter]

/-- Witness for C6: bob likes the fixture movie 1 twice. -/
theorem C6_double_like_witness :
    getMovie exampleMovies.movies 1 = .ok inception ∧
    (∃ st1 st2 : MovieStore,
      CreateLike_mutate exampleMovies (.auth bob) 1 = .ok (st1, bob.id, inception) ∧
      CreateLike_mutate st1 (.auth bob) 1 = .ok (st2, bob.id, inception) ∧
      st2.likes = exampleMovies.likes ++
        [{ id := exampleMovies.nextLikeId, user := some bob.id, movie := inception.id },
         { id := exampleMovies.nextLikeId + 1, user := some bob.id, movie := inception.id }] ∧
      exampleMovies.nextLikeId ≠ exampleMovies.nextLikeId + 1 ∧
      (st2.likes.filter (fun l => l.user == some bob.id && l.movie == inception.id)).length =
        (exampleMovies.likes.filter
          (fun l => l.user == some bob.id && l.movie == inception.id)).length + 2) :=
  ⟨rfl, C6_double_like exampleMovies bob 1 inception rfl⟩

/-! Claim C7. -/

/-- C7: `remove_like` (the UpdateLike mutation) for an authenticated
requester: when the movie exists but the requester has no Like on it,
the call fails with the row-lookup `DoesNotExist` failure (the spec's
NotFound) and, being an error result, deletes nothing; when exactly one
matching Like exists, that row is deleted and (user, movie) is
returned; and when the movie id matches no Movie the call fails with
`DoesNotExist` as well. -/
theorem C7_remove_like (st : MovieStore) (u : User) (movie_id : Nat)
    (m : Movie) (hm : getMovie st.movies movie_id = .ok m) :
    (getLike st.likes u.id m.id = .error .doesNotExist →
      UpdateLike_mutate st (.auth u) movie_id = .error .doesNotExist) ∧
    (∀ lk : Like,
      st.likes.filter (fun l => l.user == some u.id && l.movie == m.id) = [lk] →
      UpdateLike_mutate st (.auth u) movie_id =
        .ok ({ st with likes := st.likes.filter (fun l => !(l.id == lk.id)) },
             u.id, m)) ∧
    (∀ bad : Nat, getMovie st.movies bad = .error .doesNotExist →
      UpdateLike_mutate st (.auth u) bad = .error .doesNotExist) := by
  refine ⟨?_, ?_, ?_⟩
  · intro hlk
    simp [UpdateLike_mutate, hm, hlk, Bind.bind, Except.bind, pyFalsyInstance]
  · intro lk hflt
    have hlk : getLike st.likes u.id m.id = .ok lk := by
      unfold getLike; rw [hflt]
    simp [UpdateLike_mutate, hm, hlk, Bind.bind, Except.bind, pyFalsyInstance,
          pure, Except.pure]
  · intro bad hbad
    simp [UpdateLike_mutate, hbad, Bind.bind, Except.bind]

/-- Witness for C7: the fixture store, where bob's single like sits on
movie 2 and movie id 99 matches nothing. -/
theorem C7_remove_like_witness :
    getMovie exampleMovies.movies 2 = .ok darkKnight ∧
    ((getLike exampleMovies.likes bob.id darkKnight.id = .error .doesNotExist →
      UpdateLike_mutate exampleMovies (.auth bob) 2 = .error .doesNotExist) ∧
    (∀ lk : Like,
      exampleMovies.likes.filter
        (fun l => l.user == some bob.id && l.movie == darkKnight.id) = [lk] →
      UpdateLike_mutate exampleMovies (.auth bob) 2 =
        .ok ({ exampleMovies with
                likes := exampleMovies.likes.filter (fun l => !(l.id == lk.id)) },
             bob.id, darkKnight)) ∧
    (∀ bad : Nat, getMovie exampleMovies.movies bad = .error .doesNotExist →
      UpdateLike_mutate exampleMovies (.auth bob) bad = .error .doesNotExist)) :=
  ⟨rfl, C7_remove_like exampleMovies bob 2 darkKnight rfl⟩

/-! Claim C8. -/

/-- C8: `create_movie` rejects the Anonymous requester with the
must-be-logged-in error, rejects every authenticated non-superuser with
the admin-only error (both error results carry no store), and for a
superuser appends exactly one new movie whose `posted_by` is the
requester and returns it. -/
theorem C8_create_movie (st : MovieStore) (u : User)
    (title description url : String) (year rating : Nat)
    (poster cover : String) (genre : List String) (now : Nat) :
    CreateMovie_mutate st .anonymous title description url year rating
        poster cover genre now =
      .error (.graphQLError "You must be logged in to add movies") ∧
    (u.is_superuser = false →
      CreateMovie_mutate st (.auth u) title description url year rating
          poster cover genre now =
        .error (.graphQLError "Only admin users can add movies")) ∧
    (u.is_superuser = true →
      ∃ m : Movie,
        CreateMovie_mutate st (.auth u) title description url year rating
            poster cover genre now =
          .ok ({ st with
                  movies := st.movies ++ [m],
                  nextMovieId := st.nextMovieId + 1 }, m) ∧
        m.posted_by = some u.id ∧ m.title = title) := by
  refine ⟨rfl, ?_, ?_⟩
  · intro h
    simp [CreateMovie_mutate, h]
  · intro h
    refine ⟨{ id := st.nextMovieId, title := title, description := description,
              url := url, year := year, rating := rating, poster := poster,
              cover := cover, genre := genre, created_at := now,
              posted_by := some u.id }, ?_, rfl, rfl⟩
    simp [CreateMovie_mutate, h]

/-- Witness for C8: the superuser creates a movie in the fixture store;
the anonymous and non-superuser refusals are stated alongside. -/
theorem C8_create_movie_witness :
    CreateMovie_mutate exampleMovies .anonymous "Tenet" "time" "http://m/3"
        2020 4 "p3" "c3" ["scifi"] 13 =
      .error (.graphQLError "You must be logged in to add movies") ∧
    (alice.is_superuser = false →
      CreateMovie_mutate exampleMovies (.auth alice) "Tenet" "time" "http://m/3"
          2020 4 "p3" "c3" ["scifi"] 13 =
        .error (.graphQLError "Only admin users can add movies")) ∧
    (alice.is_superuser = true →
      ∃ m : Movie,
        CreateMovie_mutate exampleMovies (.auth alice) "Tenet" "time" "http://m/3"
            2020 4 "p3" "c3" ["scifi"] 13 =
          .ok ({ exampleMovies with
                 movies := exampleMovies.movies ++ [m],
                 nextMovieId := exampleMovies.nextMovieId + 1 }, m) ∧
        m.posted_by = some alice.id ∧ m.title = "Tenet") :=
  C8_create_movie exampleMovies alice "Tenet" "time" "http://m/3" 2020 4
    "p3" "c3" ["scifi"] 13

/-! Claim C9. -/

/-- C9 counterexample: `update_account` does not leave an absent field
unchanged. The mutation's `Arguments` are optional but `mutate` binds
both names as required positional parameters, so a call by an
authenticated requester that supplies only `first_name` fails with
`TypeError` instead of returning an updated User. -/
theorem C9_counterexample :
    UpdateAccount_mutate exampleUsers (.auth bob) (some "Avery") none =
      .error .typeError ∧
    (UpdateAccount_mutate exampleUsers (.auth bob) (some "Avery") none).isOk =
      false := ⟨rfl, rfl⟩

/-- C9 (amended): `update_account` requires both name arguments to be
supplied — an absent one fails the call with `TypeError` (even before
the anonymity check) — and, with both supplied, an Anonymous requester
is denied before any mutation, while an authenticated requester gets
each non-empty value written over the corresponding field, each empty
value ignored, and the updated own record saved and returned. -/
theorem C9_update_account (st : UserStore) (u : User) (fn ln : String) :
    UpdateAccount_mutate st .anonymous (some fn) (some ln) =
      .error (.graphQLError "Please login to update account!") ∧
    UpdateAccount_mutate st (.auth u) (some fn) (some ln) =
      .ok ({ st with users := saveUser st.users (applyNameUpdate u fn ln) },
           applyNameUpdate u fn ln) ∧
    (fn ≠ "" → (applyNameUpdate u fn ln).first_name = fn) ∧
    (fn = "" → (applyNameUpdate u fn ln).first_name = u.first_name) ∧
    (ln ≠ "" → (applyNameUpdate u fn ln).last_name = ln) ∧
    (ln = "" → (applyNameUpdate u fn ln).last_name = u.last_name) ∧
    (applyNameUpdate u fn ln).username = u.username ∧
    UpdateAccount_mutate st (.auth u) none (some ln) = .error .typeError ∧
    UpdateAccount_mutate st (.auth u) (some fn) none = .error .typeError ∧
    UpdateAccount_mutate st (.auth u) none none = .error .typeError ∧
    UpdateAccount_mutate st .anonymous (some fn) none = .error .typeError := by
  refine ⟨rfl, rfl, ?_, ?_, ?_, ?_, ?_, rfl, rfl, rfl, rfl⟩
  · intro h
    by_cases hl : ln = "" <;> simp [applyNameUpdate, h, hl]
  · intro h
    by_cases hl : ln = "" <;> simp [applyNameUpdate, h, hl]
  · intro h
    simp [applyNameUpdate, h]
  · intro h
    by_cases hf : fn = "" <;> simp [applyNameUpdate, h, hf]
  · by_cases hf : fn = "" <;> by_cases hl : ln = "" <;>
      simp [applyNameUpdate, hf, hl]

/-- Witness for C9: bob supplies a new first name and an empty last
name on the fixture table. -/
theorem C9_update_account_witness :
    UpdateAccount_mutate exampleUsers .anonymous (some "Avery") (some "") =
      .error (.graphQLError "Please login to update account!") ∧
    UpdateAccount_mutate exampleUsers (.auth bob) (some "Avery") (some "") =
      .ok ({ exampleUsers with
              users := saveUser exampleUsers.users (applyNameUpdate bob "Avery" "") },
           applyNameUpdate bob "Avery" "") ∧
    (("Avery" : String) ≠ "" → (applyNameUpdate bob "Avery" "").first_name = "Avery") ∧
    (("Avery" : String) = "" → (applyNameUpdate bob "Avery" "").first_name = bob.first_name) ∧
    (("" : String) ≠ "" → (applyNameUpdate bob "Avery" "").last_name = "") ∧
    (("" : String) = "" → (applyNameUpdate bob "Avery" "").last_name = bob.last_name) ∧
    (applyNameUpdate bob "Avery" "").username = bob.username ∧
    UpdateAccount_mutate exampleUsers (.auth bob) none (some "") = .error .typeError ∧
    UpdateAccount_mutate exampleUsers (.auth bob) (some "Avery") none = .error .typeError ∧
    UpdateAccount_mutate exampleUsers (.auth bob) none none = .error .typeError ∧
    UpdateAccount_mutate exampleUsers .anonymous (some "Avery") none = .error .typeError :=
  C9_update_account exampleUsers bob "Avery" ""

/-! Claim C10. -/

/-- C10: when the requester holds more than one Like on the movie,
`remove_like` propagates `MultipleObjectsReturned` from the single-row
lookup — it does not pick a duplicate — and the error result carries no
store, so the Like table is untouched. -/
theorem C10_duplicate_like_removal (st : MovieStore) (u : User)
    (movie_id : Nat) (m : Movie)
    (hm : getMovie st.movies movie_id = .ok m)
    (hmulti : 2 ≤ (st.likes.filter
      (fun l => l.user == some u.id && l.movie == m.id)).length) :
    UpdateLike_mutate st (.auth u) movie_id = .error .multipleObjectsReturned := by
  have hlk : getLike st.likes u.id m.id = .error .multipleObjectsReturned := by
    unfold getLike
    cases hf : st.likes.filter (fun l => l.user == some u.id && l.movie == m.id) with
    | nil => rw [hf] at hmulti; simp at hmulti
    | cons a t =>
      cases t with
      | nil => rw [hf] at hmulti; simp at hmulti
      | cons b t2 => rfl
  simp [UpdateLike_mutate, hm, hlk, Bind.bind, Except.bind, pyFalsyInstance]

/-- Witness for C10: bob holds two likes on the fixture movie 1;
removal fails with `MultipleObjectsReturned`. -/
theorem C10_duplicate_like_removal_witness :
    getMovie dupLikeMovies.movies 1 = .ok inception ∧
    2 ≤ (dupLikeMovies.likes.filter
      (fun l => l.user == some bob.id && l.movie == inception.id)).length ∧
    UpdateLike_mutate dupLikeMovies (.auth bob) 1 =
      .error .multipleObjectsReturned :=
  ⟨rfl, by decide,
   C10_duplicate_like_removal dupLikeMovies bob 1 inception rfl (by decide)⟩

end Streamy
